import Mathlib

/-!
Verification of the multi-server lifecycle orchestration layer in
`internal/servers/server.go` (`Container.Run`).

The embedding is a shallow one: `Run` is translated into a pure Lean
function that, instead of performing I/O, consults an `Env` oracle for the
outcome of every fallible external operation (authenticator construction,
TLS credential loading, `net.Listen`, the gateway dial, handler
registration, HTTP shutdown) and records every externally visible action
in an ordered trace of `Event`s.  The trace order mirrors the order in
which the source's statements execute on the main goroutine; actions that
the source performs inside a spawned goroutine (the serve loops, the
profiler) are recorded at their spawn point, which is the only point the
main-line control flow of `Run` observes.
-/

namespace Servers

/-- Error values that `Run` can return, one per distinct `return err` source
site: authenticator construction failures (lines 122-135), the unknown
authentication method error (line 137), the two TLS credential loads
(lines 148, 249), the two `net.Listen` calls (lines 212, 218), the gateway
dial (line 261), the four gateway handler registrations (lines 289-300),
and the HTTP shutdown error (line 340). -/
inductive Err where
  | presharedInit
  | oidcInit
  | unknownAuthMethod (method : String)
  | serverTLSLoad
  | clientTLSLoad
  | listenPrimary
  | listenInvoker
  | dialFailed
  | registerPermission
  | registerSchema
  | registerData
  | registerTenancy
  | httpShutdown
deriving DecidableEq, Repr

/-- One stage of an interceptor chain, by kind.  `rateLimit` carries the
identifier of the rate-limiter instance it was built around (the source
closes over the `limiter` value from line 102). -/
inductive Stage where
  | validator
  | recovery
  | rateLimit (limiterId : Nat)
  | authPreshared
  | authOidc
deriving DecidableEq, Repr

/-- The `grpc.ServerOption` list of lines 141-153: the chained unary and
streaming interceptor lists, plus whether `grpc.Creds` was appended. -/
structure ServerOpts where
  unary : List Stage
  stream : List Stage
  creds : Bool
deriving DecidableEq, Repr

/-- Which of the two gRPC servers: `grpcServer` (line 156) or
`invokeServer` (line 170). -/
inductive SrvId where
  | primary
  | invoker
deriving DecidableEq, Repr

/-- The protojson marshaling options of lines 276-282. -/
structure MarshalerCfg where
  UseProtoNames : Bool
  EmitUnpopulated : Bool
  DiscardUnknown : Bool
deriving DecidableEq, Repr

/-- The `http.Server` built on lines 302-314 together with the ServeMux
options of lines 272-285: CORS policy, read-header timeout, healthz
passthrough and the JSON marshaler configuration. -/
structure HTTPServerModel where
  Port : String
  CORSAllowCredentials : Bool
  CORSAllowedOrigins : List String
  CORSAllowedHeaders : List String
  CORSAllowedMethods : List String
  ReadHeaderTimeoutSecs : Nat
  HealthzPassthrough : Bool
  Marshaler : MarshalerCfg
deriving DecidableEq, Repr

/-- Externally visible actions of `Run`, in main-goroutine order.
`profilerStartLog` and `profilerFailLog` are the two `slog` calls inside
the profiler goroutine (lines 190 and 205); `listen` is a successful
`net.Listen`; `serveStart` is the spawn of a `Serve` goroutine;
`httpShutdown` records the grace (in seconds) that the context handed to
`http.Server.Shutdown` still affords; `gracefulStop` is a
`GracefulStop()` call (which is also the only operation on these paths
that closes the server's listener); `connClose` is the deferred
`conn.Close()` of line 265. -/
inductive Event where
  | newRateLimiter (id : Nat)
  | newGrpcServer (which : SrvId) (opts : ServerOpts)
  | profilerStartLog (port : String)
  | profilerFailLog
  | listen (port : String)
  | serveStart (which : SrvId)
  | dial (port : String)
  | httpServeStart (hs : HTTPServerModel)
  | httpShutdown (graceSecs : Nat)
  | gracefulStop (which : SrvId)
  | shutdownLog
  | connClose
deriving DecidableEq, Repr

/-- How `Run` ends: a Go `return` with a possibly-nil error, or a runtime
panic from a nil-pointer dereference, tagged with the dereferenced
argument. -/
inductive Outcome where
  | ret (e : Option Err)
  | panicked (site : String)
deriving DecidableEq, Repr

/-- `config.TLS` as read by `Run`: `Enabled`, `CertPath`, `KeyPath`. -/
structure TLSConfig where
  Enabled : Bool
  CertPath : String
  KeyPath : String
deriving DecidableEq, Repr

/-- The `GRPC` part of `config.Server`. -/
structure GRPCCfg where
  Port : String
  TLSConfig : TLSConfig
deriving DecidableEq, Repr

/-- The `HTTP` part of `config.Server`. -/
structure HTTPCfg where
  Enabled : Bool
  Port : String
  TLSConfig : TLSConfig
  CORSAllowedOrigins : List String
  CORSAllowedHeaders : List String
deriving DecidableEq, Repr

/-- `config.Server` as read by `Run`: the gRPC and HTTP sections and the
rate limit passed to `middleware.NewRateLimiter` (line 102). -/
structure Server where
  GRPC : GRPCCfg
  HTTP : HTTPCfg
  RateLimit : Nat
deriving DecidableEq, Repr

/-- `config.Distributed` as read by `Run`: only `Port` (line 218). -/
structure Distributed where
  Port : String
deriving DecidableEq, Repr

/-- `config.Authn` as read by `Run`: `Enabled`, the `Method` tag and the
per-method payloads (opaque here; their validity is decided by the `Env`
oracle). -/
structure Authn where
  Enabled : Bool
  Method : String
  Preshared : List String
  Oidc : String
deriving DecidableEq, Repr

/-- `config.Profiler` as read by `Run`: `Enabled` and `Port`. -/
structure Profiler where
  Enabled : Bool
  Port : String
deriving DecidableEq, Repr

/-- Outcome of the profiler goroutine's `pprofserver.ListenAndServe()`
call (line 202): it either serves forever (never returns), or returns
`http.ErrServerClosed`, or returns some other error such as a bind
failure. -/
inductive PprofOutcome where
  | running
  | serverClosed
  | bindFailure
deriving DecidableEq, Repr

/-- Oracle for the outcome of every fallible external operation that `Run`
performs, in source order: `preshared.NewKeyAuthn` (line 122),
`oidc.NewOidcAuthn` (line 130), `credentials.NewServerTLSFromFile`
(line 148), `credentials.NewClientTLSFromFile` (line 249), the profiler
goroutine's serve call (line 202), the two `net.Listen` calls (lines 212
and 218), `grpc.DialContext` (line 261), the four handler registrations
(lines 289-300), and `httpServer.Shutdown` (line 340). -/
structure Env where
  presharedOk : Bool
  oidcOk : Bool
  serverTLSOk : Bool
  clientTLSOk : Bool
  pprof : PprofOutcome
  listenPrimaryOk : Bool
  listenInvokerOk : Bool
  dialOk : Bool
  registerPermissionOk : Bool
  registerSchemaOk : Bool
  registerDataOk : Bool
  registerTenancyOk : Bool
  httpShutdownOk : Bool
deriving DecidableEq, Repr

/-- Go `context.WithTimeout` semantics: the derived context is done as soon
as the parent is done or the timeout elapses, whichever comes first, so a
child derived from an already-cancelled parent affords zero grace. `Run`
derives its shutdown context (line 336) from the `ctx` it has just seen
complete at `<-ctx.Done()` (line 333). -/
def withTimeoutGrace (parentCancelled : Bool) (secs : Nat) : Nat :=
  if parentCancelled then 0 else secs

/-- Lines 104-139: the unary and streaming interceptor chains.  Both start
as the literal three-element lists of lines 104-114 (validator, recovery,
rate limit); if authentication is non-nil and enabled, the method tag is
dispatched: `preshared` and `oidc` construct an authenticator (which may
fail) and append the corresponding auth interceptor to both chains; any
other tag is an immediate error (line 137). -/
def mkInterceptors (env : Env) (authentication : Option Authn) (limiterId : Nat) :
    Except Err (List Stage × List Stage) :=
  let unaryInterceptors := [Stage.validator, Stage.recovery, Stage.rateLimit limiterId]
  let streamingInterceptors := [Stage.validator, Stage.recovery, Stage.rateLimit limiterId]
  match authentication with
  | some a =>
    if a.Enabled then
      if a.Method = "preshared" then
        if env.presharedOk then
          Except.ok (unaryInterceptors ++ [Stage.authPreshared],
            streamingInterceptors ++ [Stage.authPreshared])
        else Except.error Err.presharedInit
      else if a.Method = "oidc" then
        if env.oidcOk then
          Except.ok (unaryInterceptors ++ [Stage.authOidc],
            streamingInterceptors ++ [Stage.authOidc])
        else Except.error Err.oidcInit
      else Except.error (Err.unknownAuthMethod a.Method)
    else Except.ok (unaryInterceptors, streamingInterceptors)
  | none => Except.ok (unaryInterceptors, streamingInterceptors)

/-- Lines 146-153: when gRPC TLS is enabled, load server transport
credentials from the configured files (may fail); returns whether
`grpc.Creds` was appended to the option list. -/
def loadServerCreds (env : Env) (srv : Server) : Except Err Bool :=
  if srv.GRPC.TLSConfig.Enabled then
    if env.serverTLSOk then Except.ok true else Except.error Err.serverTLSLoad
  else Except.ok false

/-- Lines 177-209: the profiler sidecar.  When enabled, its goroutine logs
a start message (line 190) and calls `ListenAndServe` (line 202); the
source logs a failure message only when the returned error is
`http.ErrServerClosed` (lines 204-206), so a genuine bind failure
produces no log.  Nothing here feeds back into `Run`'s control flow. -/
def profilerRun (env : Env) (profiler : Profiler) : List Event :=
  if profiler.Enabled then
    Event.profilerStartLog profiler.Port ::
      (match env.pprof with
        | PprofOutcome.running => []
        | PprofOutcome.serverClosed => [Event.profilerFailLog]
        | PprofOutcome.bindFailure => [])
  else []

/-- Lines 272-314: the gateway's ServeMux options and `http.Server`,
built verbatim from the source's literals: healthz passthrough
(line 273), protojson marshaling with `UseProtoNames`, `EmitUnpopulated`
and `DiscardUnknown` all set (lines 276-282), CORS with credentials
allowed, configured origins/headers, the fixed six methods (lines
304-312), and a 5-second read-header timeout (line 313). -/
def mkHTTPServer (srv : Server) : HTTPServerModel :=
  { Port := srv.HTTP.Port
    CORSAllowCredentials := true
    CORSAllowedOrigins := srv.HTTP.CORSAllowedOrigins
    CORSAllowedHeaders := srv.HTTP.CORSAllowedHeaders
    CORSAllowedMethods := ["GET", "POST", "HEAD", "PATCH", "DELETE", "PUT"]
    ReadHeaderTimeoutSecs := 5
    HealthzPassthrough := true
    Marshaler := { UseProtoNames := true, EmitUnpopulated := true, DiscardUnknown := true } }

/-- Lines 243-329: gateway setup, entered only when `srv.HTTP.Enabled`.
Client transport credentials are loaded when gRPC TLS is enabled (may
fail, line 249) before the dial; the dial (line 261, bounded by a 3s
timeout) may fail; after a successful dial `conn.Close()` is deferred
(line 265), so every later return path emits `connClose`; the four
handler registrations (lines 289-300) may each fail; on success the
`http.Server` is built and its serve goroutine spawned (line 317).
Returns the error and the events emitted, or the server model and the
events emitted. -/
def gatewaySetup (env : Env) (srv : Server) :
    Except (Err × List Event) (HTTPServerModel × List Event) :=
  let clientCreds : Except Err Unit :=
    if srv.GRPC.TLSConfig.Enabled then
      if env.clientTLSOk then Except.ok () else Except.error Err.clientTLSLoad
    else Except.ok ()
  match clientCreds with
  | Except.error e => Except.error (e, [])
  | Except.ok _ =>
    if env.dialOk then
      if env.registerPermissionOk then
        if env.registerSchemaOk then
          if env.registerDataOk then
            if env.registerTenancyOk then
              Except.ok (mkHTTPServer srv,
                [Event.dial srv.GRPC.Port, Event.httpServeStart (mkHTTPServer srv)])
            else Except.error (Err.registerTenancy, [Event.dial srv.GRPC.Port, Event.connClose])
          else Except.error (Err.registerData, [Event.dial srv.GRPC.Port, Event.connClose])
        else Except.error (Err.registerSchema, [Event.dial srv.GRPC.Port, Event.connClose])
      else Except.error (Err.registerPermission, [Event.dial srv.GRPC.Port, Event.connClose])
    else Except.error (Err.dialFailed, [])

/-- `Container.Run` (lines 92-353).  The `Option` arguments model Go's
nilable pointers; dereferencing `none` yields `Outcome.panicked` at the
corresponding site (`srv.RateLimit` at line 102, `profiler.Enabled` at
line 178, `dst.Port` at line 218).  The returned trace records the
externally visible actions in main-goroutine order: rate-limiter
construction (line 102), interceptor/option assembly, the two
`grpc.NewServer` calls (lines 156, 170), the profiler goroutine (lines
177-209), the two `net.Listen` calls (lines 212, 218), the two `Serve`
goroutine spawns (lines 224-234), the gateway setup (lines 243-330), and
after `<-ctx.Done()` (line 333) the shutdown sequence (lines 336-352):
`httpServer.Shutdown` with a context derived by `WithTimeout` from the
already-cancelled `ctx`, which on error is logged and returned
immediately (lines 340-343), otherwise `GracefulStop` on `grpcServer`
then `invokeServer` (lines 347-348) and a clean return.  The deferred
`conn.Close()` runs at every return point reached after a successful
dial; it cannot alter the returned error because `Run`'s result is not a
named return value. -/
def Run (env : Env) (srv : Option Server) (dst : Option Distributed)
    (authentication : Option Authn) (profiler : Option Profiler) :
    Outcome × List Event :=
  match srv with
  | none => (Outcome.panicked "srv", [])
  | some srv =>
    match mkInterceptors env authentication 0 with
    | Except.error e => (Outcome.ret (some e), [Event.newRateLimiter 0])
    | Except.ok (unaryInterceptors, streamingInterceptors) =>
      match loadServerCreds env srv with
      | Except.error e => (Outcome.ret (some e), [Event.newRateLimiter 0])
      | Except.ok creds =>
        let opts : ServerOpts :=
          { unary := unaryInterceptors, stream := streamingInterceptors, creds := creds }
        match profiler with
        | none =>
          (Outcome.panicked "profiler",
            [Event.newRateLimiter 0, Event.newGrpcServer SrvId.primary opts,
              Event.newGrpcServer SrvId.invoker opts])
        | some profiler =>
          if env.listenPrimaryOk then
            match dst with
            | none =>
              (Outcome.panicked "dst",
                [Event.newRateLimiter 0, Event.newGrpcServer SrvId.primary opts,
                  Event.newGrpcServer SrvId.invoker opts] ++ profilerRun env profiler ++
                  [Event.listen srv.GRPC.Port])
            | some dst =>
              if env.listenInvokerOk then
                let evs :=
                  [Event.newRateLimiter 0, Event.newGrpcServer SrvId.primary opts,
                    Event.newGrpcServer SrvId.invoker opts] ++ profilerRun env profiler ++
                    [Event.listen srv.GRPC.Port, Event.listen dst.Port,
                      Event.serveStart SrvId.primary, Event.serveStart SrvId.invoker]
                if srv.HTTP.Enabled then
                  match gatewaySetup env srv with
                  | Except.error (e, gevs) => (Outcome.ret (some e), evs ++ gevs)
                  | Except.ok (_, gevs) =>
                    if env.httpShutdownOk then
                      (Outcome.ret none, evs ++ gevs ++
                        [Event.httpShutdown (withTimeoutGrace true 5),
                          Event.gracefulStop SrvId.primary, Event.gracefulStop SrvId.invoker,
                          Event.shutdownLog, Event.connClose])
                    else
                      (Outcome.ret (some Err.httpShutdown), evs ++ gevs ++
                        [Event.httpShutdown (withTimeoutGrace true 5), Event.connClose])
                else
                  (Outcome.ret none, evs ++
                    [Event.gracefulStop SrvId.primary, Event.gracefulStop SrvId.invoker,
                      Event.shutdownLog])
              else
                (Outcome.ret (some Err.listenInvoker),
                  [Event.newRateLimiter 0, Event.newGrpcServer SrvId.primary opts,
                    Event.newGrpcServer SrvId.invoker opts] ++ profilerRun env profiler ++
                    [Event.listen srv.GRPC.Port])
          else
            (Outcome.ret (some Err.listenPrimary),
              [Event.newRateLimiter 0, Event.newGrpcServer SrvId.primary opts,
                Event.newGrpcServer SrvId.invoker opts] ++ profilerRun env profiler)

/-- Trace of a `Run` invocation with a non-nil server configuration. -/
def RunTrace (env : Env) (srv : Server) (dst : Option Distributed)
    (authentication : Option Authn) (profiler : Option Profiler) : List Event :=
  (Run env (some srv) dst authentication profiler).2

/-- Classifier: rate-limiter construction events. -/
def Event.isNewRateLimiter : Event → Bool
  | Event.newRateLimiter _ => true
  | _ => false

/-- Classifier: gRPC server construction events. -/
def Event.isNewGrpcServer : Event → Bool
  | Event.newGrpcServer _ _ => true
  | _ => false

/-- Classifier: successful `net.Listen` events. -/
def Event.isListen : Event → Bool
  | Event.listen _ => true
  | _ => false

/-- Classifier: `Serve` goroutine spawn events. -/
def Event.isServeStart : Event → Bool
  | Event.serveStart _ => true
  | _ => false

/-- Classifier: HTTP gateway serve-goroutine spawn events. -/
def Event.isHttpServeStart : Event → Bool
  | Event.httpServeStart _ => true
  | _ => false

/-- Classifier: `GracefulStop` events. -/
def Event.isGracefulStop : Event → Bool
  | Event.gracefulStop _ => true
  | _ => false

/-- Classifier: shutdown-sequence events (`httpServer.Shutdown` and the two
`GracefulStop` calls). -/
def Event.isShutdownStep : Event → Bool
  | Event.httpShutdown _ => true
  | Event.gracefulStop _ => true
  | _ => false

/-- Classifier: the profiler goroutine's failure log (line 205). -/
def Event.isProfilerFailLog : Event → Bool
  | Event.profilerFailLog => true
  | _ => false

/-- Classifier: events emitted by the profiler goroutine. -/
def Event.isProfilerEvent : Event → Bool
  | Event.profilerStartLog _ => true
  | Event.profilerFailLog => true
  | _ => false

/-- Classifier: events not emitted by the profiler goroutine. -/
def Event.isNonProfilerEvent : Event → Bool
  | Event.profilerStartLog _ => false
  | Event.profilerFailLog => false
  | _ => true

/-- The auth interceptor stages that a given authentication configuration
contributes to the end of each chain (empty when authentication is nil,
disabled, or its method tag unrecognized). -/
def authSuffix : Option Authn → List Stage
  | none => []
  | some a =>
    if a.Enabled then
      if a.Method = "preshared" then [Stage.authPreshared]
      else if a.Method = "oidc" then [Stage.authOidc]
      else []
    else []

/-- The configuration-error conditions named by the spec: an enabled
authentication with an unrecognized method tag, a failing preshared-key
authenticator construction, a failing OIDC authenticator construction, or
a failing server TLS credential load with gRPC TLS enabled. -/
def configErrorTrigger (env : Env) (authentication : Option Authn) (srv : Server) : Bool :=
  (match authentication with
    | some a =>
      a.Enabled &&
        ((!(a.Method == "preshared") && !(a.Method == "oidc"))
          || (a.Method == "preshared" && !env.presharedOk)
          || (a.Method == "oidc" && !env.oidcOk))
    | none => false)
  || (srv.GRPC.TLSConfig.Enabled && !env.serverTLSOk)

/-- Structural invariants of a `Run` trace, stated over the filters of the
trace: exactly one rate limiter (with identifier 0) is constructed; the
gRPC-server construction events, when present, are exactly one primary
and one invoker construction sharing one `ServerOpts` value that carries
the interceptor chains and credentials `Run` computed; the
shutdown-sequence events appear in gateway-primary-invoker order (with
the suffix possibly truncated) and every HTTP shutdown is given zero
grace; any gateway serve start carries the `http.Server` model built by
`mkHTTPServer`; and when the profiler's serve call fails with an error
other than `http.ErrServerClosed`, no profiler failure log is emitted. -/
def TraceShape (env : Env) (srv : Server) (authentication : Option Authn)
    (tr : List Event) : Prop :=
  tr.filter Event.isNewRateLimiter = [Event.newRateLimiter 0]
  ∧ (tr.filter Event.isNewGrpcServer = []
      ∨ ∃ o : ServerOpts,
          mkInterceptors env authentication 0 = Except.ok (o.unary, o.stream)
          ∧ loadServerCreds env srv = Except.ok o.creds
          ∧ tr.filter Event.isNewGrpcServer
              = [Event.newGrpcServer SrvId.primary o, Event.newGrpcServer SrvId.invoker o])
  ∧ (tr.filter Event.isShutdownStep = []
      ∨ tr.filter Event.isShutdownStep = [Event.httpShutdown 0]
      ∨ tr.filter Event.isShutdownStep
          = [Event.httpShutdown 0, Event.gracefulStop SrvId.primary,
              Event.gracefulStop SrvId.invoker]
      ∨ tr.filter Event.isShutdownStep
          = [Event.gracefulStop SrvId.primary, Event.gracefulStop SrvId.invoker])
  ∧ (tr.filter Event.isHttpServeStart = []
      ∨ tr.filter Event.isHttpServeStart = [Event.httpServeStart (mkHTTPServer srv)])
  ∧ (env.pprof = PprofOutcome.bindFailure → tr.filter Event.isProfilerFailLog = [])

/-- Environment in which every external operation succeeds and the
profiler serve loop runs forever. -/
def envAllOk : Env :=
  { presharedOk := true, oidcOk := true, serverTLSOk := true, clientTLSOk := true
    pprof := PprofOutcome.running, listenPrimaryOk := true, listenInvokerOk := true
    dialOk := true, registerPermissionOk := true, registerSchemaOk := true
    registerDataOk := true, registerTenancyOk := true, httpShutdownOk := true }

/-- A disabled TLS section. -/
def tlsOff : TLSConfig := { Enabled := false, CertPath := "", KeyPath := "" }

/-- A concrete server configuration with the repository's default ports and
the HTTP gateway enabled. -/
def srvDef : Server :=
  { GRPC := { Port := "3478", TLSConfig := tlsOff }
    HTTP := { Enabled := true, Port := "3476", TLSConfig := tlsOff
              CORSAllowedOrigins := ["*"], CORSAllowedHeaders := ["*"] }
    RateLimit := 1000 }

/-- A concrete distributed (invoker) configuration. -/
def dstDef : Distributed := { Port := "5053" }

/-- A concrete profiler configuration with profiling disabled. -/
def profOff : Profiler := { Enabled := false, Port := "6060" }

/-- A concrete profiler configuration with profiling enabled. -/
def profOn : Profiler := { Enabled := true, Port := "6060" }

/-- Classifier: `httpServer.Shutdown` events. -/
def Event.isHttpShutdown : Event → Bool
  | Event.httpShutdown _ => true
  | _ => false

/-- An enabled authentication configuration with an unrecognized method
tag. -/
def authBasic : Authn := { Enabled := true, Method := "basic", Preshared := [], Oidc := "" }

/-- An enabled preshared-key authentication configuration. -/
def authPre : Authn := { Enabled := true, Method := "preshared", Preshared := ["key"], Oidc := "" }

/-- Environment in which everything succeeds except `httpServer.Shutdown`,
which returns an error. -/
def envShutFail : Env := { envAllOk with httpShutdownOk := false }

/-- Environment in which everything succeeds except the invoker listener
bind (`net.Listen` on the distributed port fails). -/
def envListenInvokerFail : Env := { envAllOk with listenInvokerOk := false }

/-- Environment in which everything succeeds except the gateway dial. -/
def envDialFail : Env := { envAllOk with dialOk := false }

/-- Environment in which everything succeeds except the profiler server,
whose `ListenAndServe` returns a bind error (not `http.ErrServerClosed`). -/
def envPprofFail : Env := { envAllOk with pprof := PprofOutcome.bindFailure }

/-- The `ServerOpts` value `Run` builds when authentication is disabled and
gRPC TLS is off. -/
def optsNoAuth : ServerOpts :=
  { unary := [Stage.validator, Stage.recovery, Stage.rateLimit 0]
    stream := [Stage.validator, Stage.recovery, Stage.rateLimit 0]
    creds := false }

theorem profilerRun_shape (env : Env) (p : Profiler) :
    profilerRun env p = []
    ∨ profilerRun env p = [Event.profilerStartLog p.Port]
    ∨ profilerRun env p = [Event.profilerStartLog p.Port, Event.profilerFailLog] := by
  unfold profilerRun
  cases hen : p.Enabled <;> cases hp : env.pprof <;> simp

theorem profilerRun_shape_of_bindFailure (env : Env) (p : Profiler)
    (h : env.pprof = PprofOutcome.bindFailure) :
    profilerRun env p = [] ∨ profilerRun env p = [Event.profilerStartLog p.Port] := by
  unfold profilerRun
  cases hen : p.Enabled <;> simp [h]

theorem gatewaySetup_error_shape (env : Env) (srv : Server) (e : Err) (gevs : List Event)
    (h : gatewaySetup env srv = Except.error (e, gevs)) :
    gevs = [] ∨ gevs = [Event.dial srv.GRPC.Port, Event.connClose] := by
  unfold gatewaySetup at h
  repeat' split at h
  all_goals (try (simp at h))
  all_goals simp [h.2.symm]

theorem gatewaySetup_ok_shape (env : Env) (srv : Server) (hs : HTTPServerModel)
    (gevs : List Event) (h : gatewaySetup env srv = Except.ok (hs, gevs)) :
    hs = mkHTTPServer srv
    ∧ gevs = [Event.dial srv.GRPC.Port, Event.httpServeStart (mkHTTPServer srv)] := by
  unfold gatewaySetup at h
  repeat' split at h
  all_goals (try (simp at h))
  all_goals exact ⟨h.1.symm, h.2.symm⟩

theorem mkInterceptors_ok_shape (env : Env) (authentication : Option Authn) (lid : Nat)
    (u st : List Stage) (h : mkInterceptors env authentication lid = Except.ok (u, st)) :
    u = [Stage.validator, Stage.recovery, Stage.rateLimit lid] ++ authSuffix authentication
    ∧ st = u := by
  unfold mkInterceptors at h
  rcases authentication with _ | a
  · simp at h
    exact ⟨by simp [authSuffix, h.1.symm], h.2.symm.trans h.1⟩
  · by_cases hen : a.Enabled <;> simp [hen] at h
    · by_cases h1 : a.Method = "preshared" <;> simp [h1] at h
      · cases hp : env.presharedOk <;> simp [hp] at h
        exact ⟨by simp [authSuffix, hen, h1, h.1.symm], h.2.symm.trans h.1⟩
      · by_cases h2 : a.Method = "oidc" <;> simp [h2] at h
        cases ho : env.oidcOk <;> simp [ho] at h
        exact ⟨by simp [authSuffix, hen, h1, h2, h.1.symm], h.2.symm.trans h.1⟩
    · exact ⟨by simp [authSuffix, hen, h.1.symm], h.2.symm.trans h.1⟩


theorem Run_trace_shape (env : Env) (srv : Server) (dst : Option Distributed)
    (authentication : Option Authn) (profiler : Option Profiler) :
    TraceShape env srv authentication (RunTrace env srv dst authentication profiler) := by
  unfold TraceShape RunTrace Run
  rcases hmk : mkInterceptors env authentication 0 with e | ⟨u, st⟩ <;> try simp only [hmk]
  · exact ⟨rfl, Or.inl rfl, Or.inl rfl, Or.inl rfl, fun _ => rfl⟩
  rcases hcr : loadServerCreds env srv with e | c <;> try simp only [hcr]
  · exact ⟨rfl, Or.inl rfl, Or.inl rfl, Or.inl rfl, fun _ => rfl⟩
  rcases profiler with _ | p <;> try simp only []
  · exact ⟨rfl, Or.inr ⟨⟨u, st, c⟩, rfl, rfl, rfl⟩, Or.inl rfl, Or.inl rfl, fun _ => rfl⟩
  cases hlp : env.listenPrimaryOk <;> try simp only [hlp]
  · refine ⟨?_, ?_, ?_, ?_, ?_⟩
    · rcases profilerRun_shape env p with h | h | h <;> rw [h] <;> rfl
    · refine Or.inr ⟨⟨u, st, c⟩, rfl, rfl, ?_⟩
      rcases profilerRun_shape env p with h | h | h <;> rw [h] <;> rfl
    · refine Or.inl ?_
      rcases profilerRun_shape env p with h | h | h <;> rw [h] <;> rfl
    · refine Or.inl ?_
      rcases profilerRun_shape env p with h | h | h <;> rw [h] <;> rfl
    · intro hbf
      rcases profilerRun_shape_of_bindFailure env p hbf with h | h <;> rw [h] <;> rfl
  rcases dst with _ | d <;> try simp only []
  · refine ⟨?_, ?_, ?_, ?_, ?_⟩
    · rcases profilerRun_shape env p with h | h | h <;> rw [h] <;> rfl
    · refine Or.inr ⟨⟨u, st, c⟩, rfl, rfl, ?_⟩
      rcases profilerRun_shape env p with h | h | h <;> rw [h] <;> rfl
    · refine Or.inl ?_
      rcases profilerRun_shape env p with h | h | h <;> rw [h] <;> rfl
    · refine Or.inl ?_
      rcases profilerRun_shape env p with h | h | h <;> rw [h] <;> rfl
    · intro hbf
      rcases profilerRun_shape_of_bindFailure env p hbf with h | h <;> rw [h] <;> rfl
  cases hli : env.listenInvokerOk <;> try simp only [hli]
  · refine ⟨?_, ?_, ?_, ?_, ?_⟩
    · rcases profilerRun_shape env p with h | h | h <;> rw [h] <;> rfl
    · refine Or.inr ⟨⟨u, st, c⟩, rfl, rfl, ?_⟩
      rcases profilerRun_shape env p with h | h | h <;> rw [h] <;> rfl
    · refine Or.inl ?_
      rcases profilerRun_shape env p with h | h | h <;> rw [h] <;> rfl
    · refine Or.inl ?_
      rcases profilerRun_shape env p with h | h | h <;> rw [h] <;> rfl
    · intro hbf
      rcases profilerRun_shape_of_bindFailure env p hbf with h | h <;> rw [h] <;> rfl
  cases hhe : srv.HTTP.Enabled <;> try simp only [hhe]
  · refine ⟨?_, ?_, ?_, ?_, ?_⟩
    · rcases profilerRun_shape env p with h | h | h <;> rw [h] <;> rfl
    · refine Or.inr ⟨⟨u, st, c⟩, rfl, rfl, ?_⟩
      rcases profilerRun_shape env p with h | h | h <;> rw [h] <;> rfl
    · refine Or.inr (Or.inr (Or.inr ?_))
      rcases profilerRun_shape env p with h | h | h <;> rw [h] <;> rfl
    · refine Or.inl ?_
      rcases profilerRun_shape env p with h | h | h <;> rw [h] <;> rfl
    · intro hbf
      rcases profilerRun_shape_of_bindFailure env p hbf with h | h <;> rw [h] <;> rfl
  rcases hgw : gatewaySetup env srv with ⟨e, gevs⟩ | ⟨hsrv, gevs⟩ <;> try simp only [hgw]
  · rcases gatewaySetup_error_shape env srv e gevs hgw with hg | hg <;> subst hg
    · refine ⟨?_, ?_, ?_, ?_, ?_⟩
      · rcases profilerRun_shape env p with h | h | h <;> rw [h] <;> rfl
      · refine Or.inr ⟨⟨u, st, c⟩, rfl, rfl, ?_⟩
        rcases profilerRun_shape env p with h | h | h <;> rw [h] <;> rfl
      · refine Or.inl ?_
        rcases profilerRun_shape env p with h | h | h <;> rw [h] <;> rfl
      · refine Or.inl ?_
        rcases profilerRun_shape env p with h | h | h <;> rw [h] <;> rfl
      · intro hbf
        rcases profilerRun_shape_of_bindFailure env p hbf with h | h <;> rw [h] <;> rfl
    · refine ⟨?_, ?_, ?_, ?_, ?_⟩
      · rcases profilerRun_shape env p with h | h | h <;> rw [h] <;> rfl
      · refine Or.inr ⟨⟨u, st, c⟩, rfl, rfl, ?_⟩
        rcases profilerRun_shape env p with h | h | h <;> rw [h] <;> rfl
      · refine Or.inl ?_
        rcases profilerRun_shape env p with h | h | h <;> rw [h] <;> rfl
      · refine Or.inl ?_
        rcases profilerRun_shape env p with h | h | h <;> rw [h] <;> rfl
      · intro hbf
        rcases profilerRun_shape_of_bindFailure env p hbf with h | h <;> rw [h] <;> rfl
  obtain ⟨hhs, hge⟩ := gatewaySetup_ok_shape env srv hsrv gevs hgw
  subst hge
  cases hsd : env.httpShutdownOk <;> try simp only [hsd]
  · refine ⟨?_, ?_, ?_, ?_, ?_⟩
    · rcases profilerRun_shape env p with h | h | h <;> rw [h] <;> rfl
    · refine Or.inr ⟨⟨u, st, c⟩, rfl, rfl, ?_⟩
      rcases profilerRun_shape env p with h | h | h <;> rw [h] <;> rfl
    · refine Or.inr (Or.inl ?_)
      rcases profilerRun_shape env p with h | h | h <;> rw [h] <;> rfl
    · refine Or.inr ?_
      rcases profilerRun_shape env p with h | h | h <;> rw [h] <;> rfl
    · intro hbf
      rcases profilerRun_shape_of_bindFailure env p hbf with h | h <;> rw [h] <;> rfl
  · refine ⟨?_, ?_, ?_, ?_, ?_⟩
    · rcases profilerRun_shape env p with h | h | h <;> rw [h] <;> rfl
    · refine Or.inr ⟨⟨u, st, c⟩, rfl, rfl, ?_⟩
      rcases profilerRun_shape env p with h | h | h <;> rw [h] <;> rfl
    · refine Or.inr (Or.inr (Or.inl ?_))
      rcases profilerRun_shape env p with h | h | h <;> rw [h] <;> rfl
    · refine Or.inr ?_
      rcases profilerRun_shape env p with h | h | h <;> rw [h] <;> rfl
    · intro hbf
      rcases profilerRun_shape_of_bindFailure env p hbf with h | h <;> rw [h] <;> rfl


/-- Every event the profiler goroutine emits is a profiler event, so
filtering a profiler trace to non-profiler events yields nothing. -/
theorem profilerRun_filter_nonProfiler (env : Env) (p : Profiler) :
    (profilerRun env p).filter Event.isNonProfilerEvent = [] := by
  rcases profilerRun_shape env p with h | h | h <;> rw [h] <;> rfl

/-- The interceptor-chain construction does not read the profiler serve
outcome. -/
theorem mkInterceptors_update_pprof (env : Env) (r : PprofOutcome) (a : Option Authn)
    (lid : Nat) : mkInterceptors { env with pprof := r } a lid = mkInterceptors env a lid := rfl

/-- The server TLS credential load does not read the profiler serve
outcome. -/
theorem loadServerCreds_update_pprof (env : Env) (r : PprofOutcome) (srv : Server) :
    loadServerCreds { env with pprof := r } srv = loadServerCreds env srv := rfl

/-- The gateway setup does not read the profiler serve outcome. -/
theorem gatewaySetup_update_pprof (env : Env) (r : PprofOutcome) (srv : Server) :
    gatewaySetup { env with pprof := r } srv = gatewaySetup env srv := rfl

/-- Changing the profiler serve outcome leaves the primary listen outcome
unchanged. -/
theorem update_pprof_listenPrimaryOk (env : Env) (r : PprofOutcome) :
    ({ env with pprof := r } : Env).listenPrimaryOk = env.listenPrimaryOk := rfl

/-- Changing the profiler serve outcome leaves the invoker listen outcome
unchanged. -/
theorem update_pprof_listenInvokerOk (env : Env) (r : PprofOutcome) :
    ({ env with pprof := r } : Env).listenInvokerOk = env.listenInvokerOk := rfl

/-- Changing the profiler serve outcome leaves the HTTP shutdown outcome
unchanged. -/
theorem update_pprof_httpShutdownOk (env : Env) (r : PprofOutcome) :
    ({ env with pprof := r } : Env).httpShutdownOk = env.httpShutdownOk := rfl

/-- If the interceptor chain was built successfully yet a configuration
error is present, that error must be the TLS credential load: the three
authentication-side errors all make `mkInterceptors` fail. -/
theorem trigger_of_mkInterceptors_ok (env : Env) (a : Authn) (srv : Server)
    (u st : List Stage) (hmk : mkInterceptors env (some a) 0 = Except.ok (u, st))
    (htr : configErrorTrigger env (some a) srv = true) :
    srv.GRPC.TLSConfig.Enabled = true ∧ env.serverTLSOk = false := by
  unfold configErrorTrigger at htr
  unfold mkInterceptors at hmk
  by_cases hen : a.Enabled <;>
    by_cases hm1 : a.Method = "preshared" <;>
    by_cases hm2 : a.Method = "oidc" <;>
    by_cases hp : env.presharedOk <;>
    by_cases ho : env.oidcOk <;>
    by_cases hts : srv.GRPC.TLSConfig.Enabled <;>
    by_cases hso : env.serverTLSOk <;>
    simp_all


/-- Whenever the HTTP gateway's serve goroutine was spawned, the shutdown
sequence of the trace starts with the HTTP shutdown step (followed by the
two graceful stops exactly when the HTTP shutdown succeeded). -/
theorem Run_gateway_shutdown_link (env : Env) (srv : Server) (dst : Option Distributed)
    (authentication : Option Authn) (profiler : Option Profiler) (hs : HTTPServerModel)
    (hm : Event.httpServeStart hs ∈ RunTrace env srv dst authentication profiler) :
    (RunTrace env srv dst authentication profiler).filter Event.isShutdownStep
        = [Event.httpShutdown 0]
    ∨ (RunTrace env srv dst authentication profiler).filter Event.isShutdownStep
        = [Event.httpShutdown 0, Event.gracefulStop SrvId.primary,
            Event.gracefulStop SrvId.invoker] := by
  unfold RunTrace Run at hm ⊢
  rcases hmk : mkInterceptors env authentication 0 with e | ⟨u, st⟩ <;>
    try simp only [hmk] at hm ⊢
  · simp at hm
  rcases hcr : loadServerCreds env srv with e | c <;> try simp only [hcr] at hm ⊢
  · simp at hm
  rcases profiler with _ | p <;> try simp only [] at hm ⊢
  · simp at hm
  cases hlp : env.listenPrimaryOk <;> try simp only [hlp] at hm ⊢
  · rcases profilerRun_shape env p with h | h | h <;> rw [h] at hm <;> simp at hm
  rcases dst with _ | d <;> try simp only [] at hm ⊢
  · rcases profilerRun_shape env p with h | h | h <;> rw [h] at hm <;> simp at hm
  cases hli : env.listenInvokerOk <;> try simp only [hli] at hm ⊢
  · rcases profilerRun_shape env p with h | h | h <;> rw [h] at hm <;> simp at hm
  cases hhe : srv.HTTP.Enabled <;> try simp only [hhe] at hm ⊢
  · rcases profilerRun_shape env p with h | h | h <;> rw [h] at hm <;> simp at hm
  rcases hgw : gatewaySetup env srv with ⟨e, gevs⟩ | ⟨hsv, gevs⟩ <;>
    try simp only [hgw] at hm ⊢
  · rcases gatewaySetup_error_shape env srv e gevs hgw with hg | hg <;> subst hg <;>
      rcases profilerRun_shape env p with h | h | h <;> rw [h] at hm <;> simp at hm
  obtain ⟨hhs2, hge⟩ := gatewaySetup_ok_shape env srv hsv gevs hgw
  subst hge
  cases hsd : env.httpShutdownOk <;> try simp only [hsd] at hm ⊢
  · refine Or.inl ?_
    rcases profilerRun_shape env p with h | h | h <;> rw [h] <;> rfl
  · refine Or.inr ?_
    rcases profilerRun_shape env p with h | h | h <;> rw [h] <;> rfl


/-- C1 counterexample: with every external operation succeeding except
`httpServer.Shutdown`, `Run` returns the shutdown error but the trace
contains no `GracefulStop` event at all — shutdown does not proceed to the
next stage, contradicting the claim that both RPC servers are still
gracefully stopped. -/
theorem C1_counterexample :
    (Run envShutFail (some srvDef) (some dstDef) none (some profOff)).1
        = Outcome.ret (some Err.httpShutdown)
    ∧ (Run envShutFail (some srvDef) (some dstDef) none (some profOff)).2.filter
        Event.isGracefulStop = []
    ∧ Event.httpShutdown 0
        ∈ (Run envShutFail (some srvDef) (some dstDef) none (some profOff)).2 := by
  refine ⟨rfl, rfl, ?_⟩
  decide

/-- C1 (corrected): if shutting down the HTTP gateway server returns an
error, `Run` logs it and returns that error immediately (lines 340-343):
the overall shutdown does report failure to the caller, but the two RPC
servers' graceful stops are skipped — the trace reaching that point holds
the HTTP shutdown event (with zero grace) and no `GracefulStop` event. -/
theorem C1_theorem (env : Env) (srv : Server) (dst : Distributed)
    (authentication : Option Authn) (p : Profiler) (u st : List Stage) (c : Bool)
    (hs : HTTPServerModel) (gevs : List Event)
    (hmk : mkInterceptors env authentication 0 = Except.ok (u, st))
    (hcr : loadServerCreds env srv = Except.ok c)
    (hlp : env.listenPrimaryOk = true) (hli : env.listenInvokerOk = true)
    (hhe : srv.HTTP.Enabled = true)
    (hgw : gatewaySetup env srv = Except.ok (hs, gevs))
    (hsd : env.httpShutdownOk = false) :
    (Run env (some srv) (some dst) authentication (some p)).1
        = Outcome.ret (some Err.httpShutdown)
    ∧ (RunTrace env srv (some dst) authentication (some p)).filter Event.isGracefulStop = []
    ∧ Event.httpShutdown 0 ∈ RunTrace env srv (some dst) authentication (some p) := by
  obtain ⟨hhs, hge⟩ := gatewaySetup_ok_shape env srv hs gevs hgw
  subst hge
  unfold RunTrace Run
  simp only [hmk, hcr, hlp, hli, hhe, hgw, hsd]
  refine ⟨rfl, ?_, ?_⟩
  · rcases profilerRun_shape env p with h | h | h <;> rw [h] <;> rfl
  · rcases profilerRun_shape env p with h | h | h <;> rw [h] <;> simp [withTimeoutGrace]

/-- C1 witness: the amended statement exercised at a concrete run whose
HTTP shutdown fails. -/
theorem C1_witness :
    (Run envShutFail (some srvDef) (some dstDef) none (some profOff)).1
        = Outcome.ret (some Err.httpShutdown)
    ∧ (RunTrace envShutFail srvDef (some dstDef) none (some profOff)).filter
        Event.isGracefulStop = []
    ∧ Event.httpShutdown 0 ∈ RunTrace envShutFail srvDef (some dstDef) none (some profOff) :=
  C1_theorem envShutFail srvDef dstDef none profOff _ _ _ (mkHTTPServer srvDef) _
    rfl rfl rfl rfl rfl rfl rfl

/-- C2 (code bug): the shutdown context is derived by
`context.WithTimeout(ctx, 5*time.Second)` from the `ctx` that has already
completed at `<-ctx.Done()`, so the deadline handed to
`httpServer.Shutdown` affords zero seconds of draining, not five: on a
fully successful run with the gateway enabled, the trace's HTTP shutdown
event records zero grace. -/
theorem C2_theorem :
    withTimeoutGrace true 5 = 0
    ∧ (RunTrace envAllOk srvDef (some dstDef) none (some profOff)).filter
        Event.isHttpShutdown = [Event.httpShutdown 0] :=
  ⟨rfl, rfl⟩

/-- C3 (confirmed): for every configuration error — an enabled
authentication with an unrecognized method tag, a failing preshared-key or
OIDC authenticator construction, or a failing server TLS credential
load — `Run` returns an error and the trace contains no successful
`net.Listen` and no `Serve` goroutine spawn: no port is opened and no
server is started. -/
theorem C3_theorem (env : Env) (srv : Server) (dst : Option Distributed)
    (authentication : Option Authn) (p : Option Profiler)
    (htr : configErrorTrigger env authentication srv = true) :
    ∃ e, (Run env (some srv) dst authentication p).1 = Outcome.ret (some e)
      ∧ (RunTrace env srv dst authentication p).filter Event.isListen = []
      ∧ (RunTrace env srv dst authentication p).filter Event.isServeStart = [] := by
  rcases hmk : mkInterceptors env authentication 0 with e | ⟨u, st⟩
  · refine ⟨e, ?_, ?_, ?_⟩ <;> (try unfold RunTrace) <;> (unfold Run; simp only [hmk]) <;> rfl
  · rcases authentication with _ | a
    · have htls : srv.GRPC.TLSConfig.Enabled = true ∧ env.serverTLSOk = false := by
        unfold configErrorTrigger at htr
        simpa using htr
      have hcr : loadServerCreds env srv = Except.error Err.serverTLSLoad := by
        unfold loadServerCreds
        simp [htls.1, htls.2]
      refine ⟨Err.serverTLSLoad, ?_, ?_, ?_⟩ <;> (try unfold RunTrace) <;>
        (unfold Run; simp only [hmk, hcr]) <;> rfl
    · have htls := trigger_of_mkInterceptors_ok env a srv u st hmk htr
      have hcr : loadServerCreds env srv = Except.error Err.serverTLSLoad := by
        unfold loadServerCreds
        simp [htls.1, htls.2]
      refine ⟨Err.serverTLSLoad, ?_, ?_, ?_⟩ <;> (try unfold RunTrace) <;>
        (unfold Run; simp only [hmk, hcr]) <;> rfl

/-- C3 witness: instantiated at the unrecognized method tag `basic` with
every external operation otherwise succeeding. -/
theorem C3_witness :
    ∃ e, (Run envAllOk (some srvDef) (some dstDef) (some authBasic) (some profOff)).1
        = Outcome.ret (some e)
      ∧ (RunTrace envAllOk srvDef (some dstDef) (some authBasic) (some profOff)).filter
          Event.isListen = []
      ∧ (RunTrace envAllOk srvDef (some dstDef) (some authBasic) (some profOff)).filter
          Event.isServeStart = [] :=
  C3_theorem envAllOk srvDef (some dstDef) (some authBasic) (some profOff) (by decide)

/-- C4 (confirmed): for every configuration the interceptor chains are
the fixed base order validation, recovery, rate limiting, with the
authentication stage (when authentication is enabled with a recognized
method) appended last, and the streaming chain equals the unary chain
stage for stage; moreover every gRPC server `Run` constructs carries
exactly these chains. -/
theorem C4_theorem :
    (∀ (env : Env) (authentication : Option Authn) (lid : Nat) (u st : List Stage),
        mkInterceptors env authentication lid = Except.ok (u, st) →
        u = [Stage.validator, Stage.recovery, Stage.rateLimit lid] ++ authSuffix authentication
          ∧ st = u)
    ∧ (∀ (env : Env) (srv : Server) (dst : Option Distributed) (authentication : Option Authn)
        (p : Option Profiler) (which : SrvId) (o : ServerOpts),
        Event.newGrpcServer which o ∈ RunTrace env srv dst authentication p →
        o.unary = [Stage.validator, Stage.recovery, Stage.rateLimit 0]
            ++ authSuffix authentication
          ∧ o.stream = o.unary) := by
  constructor
  · exact fun env a lid u st h => mkInterceptors_ok_shape env a lid u st h
  · intro env srv dst a p which o hm
    have hf : Event.newGrpcServer which o
        ∈ (RunTrace env srv dst a p).filter Event.isNewGrpcServer :=
      List.mem_filter.mpr ⟨hm, rfl⟩
    obtain ⟨h1, h2, h3, h4, h5⟩ := Run_trace_shape env srv dst a p
    rcases h2 with hnil | ⟨o2, hok, hcred, hfeq⟩
    · rw [hnil] at hf
      simp at hf
    · rw [hfeq] at hf
      have ho : o = o2 := by
        simp at hf
        rcases hf with ⟨_, h⟩ | ⟨_, h⟩ <;> exact h
      subst ho
      exact mkInterceptors_ok_shape env a 0 o.unary o.stream hok

/-- C4 witness: instantiated at an enabled preshared-key configuration. -/
theorem C4_witness :
    [Stage.validator, Stage.recovery, Stage.rateLimit 0, Stage.authPreshared]
        = [Stage.validator, Stage.recovery, Stage.rateLimit 0] ++ authSuffix (some authPre)
    ∧ [Stage.validator, Stage.recovery, Stage.rateLimit 0, Stage.authPreshared]
        = [Stage.validator, Stage.recovery, Stage.rateLimit 0, Stage.authPreshared] :=
  C4_theorem.1 envAllOk (some authPre) 0
    [Stage.validator, Stage.recovery, Stage.rateLimit 0, Stage.authPreshared]
    [Stage.validator, Stage.recovery, Stage.rateLimit 0, Stage.authPreshared] rfl

/-- C5 counterexample: with the invoker bind failing after the primary
listener was opened, `Run` returns the bind error while the trace shows
the primary listener opened and no `GracefulStop` (the only operation on
these paths that closes a listener, since `Serve` only returns upon stop):
the already-opened listener is not released before `Run` returns. -/
theorem C5_counterexample :
    (Run envListenInvokerFail (some srvDef) (some dstDef) none (some profOff)).1
        = Outcome.ret (some Err.listenInvoker)
    ∧ Event.listen "3478"
        ∈ (Run envListenInvokerFail (some srvDef) (some dstDef) none (some profOff)).2
    ∧ (Run envListenInvokerFail (some srvDef) (some dstDef) none (some profOff)).2.filter
        Event.isGracefulStop = [] := by
  refine ⟨rfl, ?_, rfl⟩
  decide

/-- C5 (corrected): on a resource-acquisition failure — the invoker bind
failing after the primary bind, or any gateway-setup failure (client TLS
load, dial, handler registration) after both binds — `Run` does return the
error, but the listeners opened before the failing step are not closed by
`Run`: no `GracefulStop` (nor any listener-closing operation) appears in
the trace, so the listeners stay open until process exit. -/
theorem C5_theorem :
    (∀ (env : Env) (srv : Server) (dst : Distributed) (authentication : Option Authn)
        (p : Profiler) (u st : List Stage) (c : Bool),
        mkInterceptors env authentication 0 = Except.ok (u, st) →
        loadServerCreds env srv = Except.ok c →
        env.listenPrimaryOk = true → env.listenInvokerOk = false →
        (Run env (some srv) (some dst) authentication (some p)).1
            = Outcome.ret (some Err.listenInvoker)
        ∧ Event.listen srv.GRPC.Port ∈ RunTrace env srv (some dst) authentication (some p)
        ∧ (RunTrace env srv (some dst) authentication (some p)).filter
            Event.isGracefulStop = [])
    ∧ (∀ (env : Env) (srv : Server) (dst : Distributed) (authentication : Option Authn)
        (p : Profiler) (u st : List Stage) (c : Bool) (e : Err) (gevs : List Event),
        mkInterceptors env authentication 0 = Except.ok (u, st) →
        loadServerCreds env srv = Except.ok c →
        env.listenPrimaryOk = true → env.listenInvokerOk = true →
        srv.HTTP.Enabled = true →
        gatewaySetup env srv = Except.error (e, gevs) →
        (Run env (some srv) (some dst) authentication (some p)).1 = Outcome.ret (some e)
        ∧ Event.listen srv.GRPC.Port ∈ RunTrace env srv (some dst) authentication (some p)
        ∧ Event.listen dst.Port ∈ RunTrace env srv (some dst) authentication (some p)
        ∧ (RunTrace env srv (some dst) authentication (some p)).filter
            Event.isGracefulStop = []) := by
  constructor
  · intro env srv dst a p u st c hmk hcr hlp hli
    unfold RunTrace Run
    simp only [hmk, hcr, hlp, hli]
    refine ⟨rfl, ?_, ?_⟩
    · rcases profilerRun_shape env p with h | h | h <;> rw [h] <;> simp
    · rcases profilerRun_shape env p with h | h | h <;> rw [h] <;> rfl
  · intro env srv dst a p u st c e gevs hmk hcr hlp hli hhe hgw
    unfold RunTrace Run
    simp only [hmk, hcr, hlp, hli, hhe, hgw]
    refine ⟨rfl, ?_, ?_, ?_⟩
    · rcases gatewaySetup_error_shape env srv e gevs hgw with hg | hg <;> subst hg <;>
        rcases profilerRun_shape env p with h | h | h <;> rw [h] <;> simp
    · rcases gatewaySetup_error_shape env srv e gevs hgw with hg | hg <;> subst hg <;>
        rcases profilerRun_shape env p with h | h | h <;> rw [h] <;> simp
    · rcases gatewaySetup_error_shape env srv e gevs hgw with hg | hg <;> subst hg <;>
        rcases profilerRun_shape env p with h | h | h <;> rw [h] <;> rfl

/-- C5 witness: instantiated at a failing invoker bind and at a failing
gateway dial. -/
theorem C5_witness :
    ((Run envListenInvokerFail (some srvDef) (some dstDef) none (some profOff)).1
        = Outcome.ret (some Err.listenInvoker)
      ∧ Event.listen srvDef.GRPC.Port
          ∈ RunTrace envListenInvokerFail srvDef (some dstDef) none (some profOff)
      ∧ (RunTrace envListenInvokerFail srvDef (some dstDef) none (some profOff)).filter
          Event.isGracefulStop = [])
    ∧ ((Run envDialFail (some srvDef) (some dstDef) none (some profOff)).1
        = Outcome.ret (some Err.dialFailed)
      ∧ Event.listen srvDef.GRPC.Port
          ∈ RunTrace envDialFail srvDef (some dstDef) none (some profOff)
      ∧ Event.listen dstDef.Port
          ∈ RunTrace envDialFail srvDef (some dstDef) none (some profOff)
      ∧ (RunTrace envDialFail srvDef (some dstDef) none (some profOff)).filter
          Event.isGracefulStop = []) :=
  ⟨C5_theorem.1 envListenInvokerFail srvDef dstDef none profOff _ _ _ rfl rfl rfl rfl,
    C5_theorem.2 envDialFail srvDef dstDef none profOff _ _ _ Err.dialFailed [] rfl rfl rfl rfl
      rfl rfl⟩

/-- C6 (confirmed): in every run the shutdown-step events of the trace
are, in order, the HTTP gateway shutdown (when the gateway is present)
strictly before any graceful stop, and the primary server's graceful stop
strictly before the invoker's; whenever the gateway serve goroutine was
spawned, the shutdown sequence indeed begins with the gateway shutdown. -/
theorem C6_theorem (env : Env) (srv : Server) (dst : Option Distributed)
    (authentication : Option Authn) (p : Option Profiler) :
    ((RunTrace env srv dst authentication p).filter Event.isShutdownStep = []
      ∨ (RunTrace env srv dst authentication p).filter Event.isShutdownStep
          = [Event.httpShutdown 0]
      ∨ (RunTrace env srv dst authentication p).filter Event.isShutdownStep
          = [Event.httpShutdown 0, Event.gracefulStop SrvId.primary,
              Event.gracefulStop SrvId.invoker]
      ∨ (RunTrace env srv dst authentication p).filter Event.isShutdownStep
          = [Event.gracefulStop SrvId.primary, Event.gracefulStop SrvId.invoker])
    ∧ (∀ hs : HTTPServerModel,
        Event.httpServeStart hs ∈ RunTrace env srv dst authentication p →
        (RunTrace env srv dst authentication p).filter Event.isShutdownStep
            = [Event.httpShutdown 0]
        ∨ (RunTrace env srv dst authentication p).filter Event.isShutdownStep
            = [Event.httpShutdown 0, Event.gracefulStop SrvId.primary,
                Event.gracefulStop SrvId.invoker]) := by
  obtain ⟨h1, h2, h3, h4, h5⟩ := Run_trace_shape env srv dst authentication p
  exact ⟨h3, fun hs hm => Run_gateway_shutdown_link env srv dst authentication p hs hm⟩

/-- C6 witness: instantiated at a fully successful run with the gateway
enabled. -/
theorem C6_witness :
    (RunTrace envAllOk srvDef (some dstDef) none (some profOff)).filter Event.isShutdownStep
        = [Event.httpShutdown 0]
    ∨ (RunTrace envAllOk srvDef (some dstDef) none (some profOff)).filter Event.isShutdownStep
        = [Event.httpShutdown 0, Event.gracefulStop SrvId.primary,
            Event.gracefulStop SrvId.invoker] :=
  (C6_theorem envAllOk srvDef (some dstDef) none (some profOff)).2 (mkHTTPServer srvDef)
    (by decide)

/-- C7 (confirmed): exactly one rate limiter (identifier 0) is
constructed per `Run` invocation, and whenever the primary and invoker
gRPC servers are constructed they share one `ServerOpts` value whose unary
and streaming chains both contain the rate-limit stage bound to that
single limiter: one admission-control domain for the whole process. -/
theorem C7_theorem (env : Env) (srv : Server) (dst : Option Distributed)
    (authentication : Option Authn) (p : Option Profiler) :
    (RunTrace env srv dst authentication p).filter Event.isNewRateLimiter
        = [Event.newRateLimiter 0]
    ∧ (∀ o o' : ServerOpts,
        Event.newGrpcServer SrvId.primary o ∈ RunTrace env srv dst authentication p →
        Event.newGrpcServer SrvId.invoker o' ∈ RunTrace env srv dst authentication p →
        o = o' ∧ Stage.rateLimit 0 ∈ o.unary ∧ Stage.rateLimit 0 ∈ o.stream) := by
  obtain ⟨h1, h2, h3, h4, h5⟩ := Run_trace_shape env srv dst authentication p
  refine ⟨h1, ?_⟩
  intro o o' hmo hmi
  have hfo : Event.newGrpcServer SrvId.primary o
      ∈ (RunTrace env srv dst authentication p).filter Event.isNewGrpcServer :=
    List.mem_filter.mpr ⟨hmo, rfl⟩
  have hfi : Event.newGrpcServer SrvId.invoker o'
      ∈ (RunTrace env srv dst authentication p).filter Event.isNewGrpcServer :=
    List.mem_filter.mpr ⟨hmi, rfl⟩
  rcases h2 with hnil | ⟨o2, hok, hcred, hfeq⟩
  · rw [hnil] at hfo
    simp at hfo
  · rw [hfeq] at hfo hfi
    have ho : o = o2 := by
      simp at hfo
      exact hfo
    have ho' : o' = o2 := by
      simp at hfi
      exact hfi
    obtain ⟨hu, hst⟩ := mkInterceptors_ok_shape env authentication 0 o2.unary o2.stream hok
    refine ⟨ho.trans ho'.symm, ?_, ?_⟩
    · rw [ho, hu]; simp
    · rw [ho, hst, hu]; simp

/-- C7 witness: instantiated at a fully successful run without
authentication. -/
theorem C7_witness :
    (RunTrace envAllOk srvDef (some dstDef) none (some profOff)).filter Event.isNewRateLimiter
        = [Event.newRateLimiter 0]
    ∧ (optsNoAuth = optsNoAuth ∧ Stage.rateLimit 0 ∈ optsNoAuth.unary
        ∧ Stage.rateLimit 0 ∈ optsNoAuth.stream) :=
  ⟨(C7_theorem envAllOk srvDef (some dstDef) none (some profOff)).1,
    (C7_theorem envAllOk srvDef (some dstDef) none (some profOff)).2 optsNoAuth optsNoAuth
      (by decide) (by decide)⟩

/-- C8 (confirmed): every HTTP gateway server `Run` starts is configured
with `UseProtoNames` (original proto field names preserved),
`EmitUnpopulated` (default/empty fields emitted) and `DiscardUnknown`
(unknown JSON request fields discarded rather than rejected) all set. -/
theorem C8_theorem (env : Env) (srv : Server) (dst : Option Distributed)
    (authentication : Option Authn) (p : Option Profiler) (hs : HTTPServerModel)
    (hm : Event.httpServeStart hs ∈ RunTrace env srv dst authentication p) :
    hs.Marshaler.UseProtoNames = true ∧ hs.Marshaler.EmitUnpopulated = true
    ∧ hs.Marshaler.DiscardUnknown = true := by
  obtain ⟨h1, h2, h3, h4, h5⟩ := Run_trace_shape env srv dst authentication p
  have hf : Event.httpServeStart hs
      ∈ (RunTrace env srv dst authentication p).filter Event.isHttpServeStart :=
    List.mem_filter.mpr ⟨hm, rfl⟩
  rcases h4 with hnil | heq
  · rw [hnil] at hf
    simp at hf
  · rw [heq] at hf
    simp at hf
    subst hf
    exact ⟨rfl, rfl, rfl⟩

/-- C8 witness: instantiated at a fully successful run with the gateway
enabled. -/
theorem C8_witness :
    (mkHTTPServer srvDef).Marshaler.UseProtoNames = true
    ∧ (mkHTTPServer srvDef).Marshaler.EmitUnpopulated = true
    ∧ (mkHTTPServer srvDef).Marshaler.DiscardUnknown = true :=
  C8_theorem envAllOk srvDef (some dstDef) none (some profOff) (mkHTTPServer srvDef) (by decide)

/-- C9 counterexample: when the profiler server's `ListenAndServe`
returns a bind error, `Run` still returns cleanly (non-fatality holds),
but no profiler failure log is emitted: the source logs only when the
error is `http.ErrServerClosed` (lines 204-206), so the claimed logging
does not happen for a bind failure. -/
theorem C9_counterexample :
    (Run envPprofFail (some srvDef) (some dstDef) none (some profOn)).1 = Outcome.ret none
    ∧ Event.profilerStartLog "6060"
        ∈ (Run envPprofFail (some srvDef) (some dstDef) none (some profOn)).2
    ∧ (Run envPprofFail (some srvDef) (some dstDef) none (some profOn)).2.filter
        Event.isProfilerFailLog = [] := by
  refine ⟨rfl, ?_, rfl⟩
  decide

/-- C9 (corrected): the profiler serve outcome never influences `Run`'s
returned value nor any non-profiler event of the trace — a profiler
bind/serve failure is not fatal and the other servers are unaffected — but
a bind failure (any error other than `http.ErrServerClosed`) produces no
failure log. -/
theorem C9_theorem :
    (∀ (env : Env) (r : PprofOutcome) (srv : Option Server) (dst : Option Distributed)
        (authentication : Option Authn) (profiler : Option Profiler),
        (Run { env with pprof := r } srv dst authentication profiler).1
            = (Run env srv dst authentication profiler).1
        ∧ (Run { env with pprof := r } srv dst authentication profiler).2.filter
              Event.isNonProfilerEvent
            = (Run env srv dst authentication profiler).2.filter Event.isNonProfilerEvent)
    ∧ (∀ (env : Env) (srv : Server) (dst : Option Distributed)
        (authentication : Option Authn) (p : Option Profiler),
        env.pprof = PprofOutcome.bindFailure →
        (RunTrace env srv dst authentication p).filter Event.isProfilerFailLog = []) := by
  constructor
  · intro env r srv dst authentication profiler
    rcases srv with _ | srv
    · exact ⟨rfl, rfl⟩
    unfold Run
    simp only [mkInterceptors_update_pprof, loadServerCreds_update_pprof,
      gatewaySetup_update_pprof, update_pprof_listenPrimaryOk, update_pprof_listenInvokerOk,
      update_pprof_httpShutdownOk]
    rcases hmk : mkInterceptors env authentication 0 with e | ⟨u, st⟩ <;> try simp only [hmk]
    · constructor <;> (first | rfl | trivial)
    rcases hcr : loadServerCreds env srv with e | c <;> try simp only [hcr]
    · constructor <;> (first | rfl | trivial)
    rcases profiler with _ | p <;> try simp only []
    · constructor <;> (first | rfl | trivial)
    cases hlp : env.listenPrimaryOk <;> try simp only [hlp]
    · constructor <;>
        first
          | rfl
          | trivial
          | simp [List.filter_append, profilerRun_filter_nonProfiler, Event.isNonProfilerEvent]
    rcases dst with _ | d <;> try simp only []
    · constructor <;>
        first
          | rfl
          | trivial
          | simp [List.filter_append, profilerRun_filter_nonProfiler, Event.isNonProfilerEvent]
    cases hli : env.listenInvokerOk <;> try simp only [hli]
    · constructor <;>
        first
          | rfl
          | trivial
          | simp [List.filter_append, profilerRun_filter_nonProfiler, Event.isNonProfilerEvent]
    cases hhe : srv.HTTP.Enabled <;> try simp only [hhe]
    · constructor <;>
        first
          | rfl
          | trivial
          | simp [List.filter_append, profilerRun_filter_nonProfiler, Event.isNonProfilerEvent]
    rcases hgw : gatewaySetup env srv with ⟨e, gevs⟩ | ⟨hsv, gevs⟩ <;> try simp only [hgw]
    · constructor <;>
        first
          | rfl
          | trivial
          | simp [List.filter_append, profilerRun_filter_nonProfiler, Event.isNonProfilerEvent]
    cases hsd : env.httpShutdownOk <;> try simp only [hsd]
    · constructor <;>
        first
          | rfl
          | trivial
          | simp [List.filter_append, profilerRun_filter_nonProfiler, Event.isNonProfilerEvent]
    · constructor <;>
        first
          | rfl
          | trivial
          | simp [List.filter_append, profilerRun_filter_nonProfiler, Event.isNonProfilerEvent]
  · intro env srv dst authentication p hbf
    exact (Run_trace_shape env srv dst authentication p).2.2.2.2 hbf

/-- C9 witness: instantiated at a profiler bind failure on an otherwise
successful run. -/
theorem C9_witness :
    (RunTrace envPprofFail srvDef (some dstDef) none (some profOn)).filter
        Event.isProfilerFailLog = [] :=
  C9_theorem.2 envPprofFail srvDef (some dstDef) none (some profOn) rfl

/-- C10 (confirmed): a nil authentication configuration behaves exactly
like a disabled one (no auth stage is appended and startup proceeds),
while the `srv`, `profiler` and `dst` pointers are dereferenced without
nil checks: a nil `srv` panics immediately at `srv.RateLimit` (line 102);
a nil `profiler` panics at `profiler.Enabled` (line 178) on every run that
passes interceptor and TLS setup; a nil `dst` panics at `dst.Port`
(line 218) on every such run that also binds the primary listener. -/
theorem C10_theorem :
    (∀ (env : Env) (srv : Option Server) (dst : Option Distributed) (p : Option Profiler)
        (m : String) (pre : List String) (oi : String),
        Run env srv dst none p
          = Run env srv dst
              (some { Enabled := false, Method := m, Preshared := pre, Oidc := oi }) p)
    ∧ (∀ env : Env, mkInterceptors env none 0
        = Except.ok ([Stage.validator, Stage.recovery, Stage.rateLimit 0],
            [Stage.validator, Stage.recovery, Stage.rateLimit 0]))
    ∧ (∀ (env : Env) (dst : Option Distributed) (a : Option Authn) (p : Option Profiler),
        Run env none dst a p = (Outcome.panicked "srv", []))
    ∧ (∀ (env : Env) (srv : Server) (dst : Option Distributed) (a : Option Authn)
        (u st : List Stage) (c : Bool),
        mkInterceptors env a 0 = Except.ok (u, st) →
        loadServerCreds env srv = Except.ok c →
        (Run env (some srv) dst a none).1 = Outcome.panicked "profiler")
    ∧ (∀ (env : Env) (srv : Server) (a : Option Authn) (p : Profiler)
        (u st : List Stage) (c : Bool),
        mkInterceptors env a 0 = Except.ok (u, st) →
        loadServerCreds env srv = Except.ok c →
        env.listenPrimaryOk = true →
        (Run env (some srv) none a (some p)).1 = Outcome.panicked "dst") := by
  refine ⟨?_, fun env => rfl, fun env dst a p => rfl, ?_, ?_⟩
  · intro env srv dst p m pre oi
    rcases srv with _ | s <;> rfl
  · intro env srv dst a u st c hmk hcr
    unfold Run
    simp only [hmk, hcr]
  · intro env srv a p u st c hmk hcr hlp
    unfold Run
    simp only [hmk, hcr, hlp]
    rfl

/-- C10 witness: the three panic sites exercised at concrete all-ok
configurations. -/
theorem C10_witness :
    Run envAllOk none (some dstDef) none (some profOff) = (Outcome.panicked "srv", [])
    ∧ (Run envAllOk (some srvDef) (some dstDef) none none).1 = Outcome.panicked "profiler"
    ∧ (Run envAllOk (some srvDef) none none (some profOff)).1 = Outcome.panicked "dst" :=
  ⟨C10_theorem.2.2.1 envAllOk (some dstDef) none (some profOff),
    C10_theorem.2.2.2.1 envAllOk srvDef (some dstDef) none _ _ _ rfl rfl,
    C10_theorem.2.2.2.2 envAllOk srvDef none profOff _ _ _ rfl rfl rfl⟩

end Servers
